import Mathlib

/-!
Shallow embedding of `circular_progress_bar.py` (kivy CircularProgressBar).

The widget's mutable attributes become a Lean structure; each Python
property setter becomes a function `State → PyVal → State × Option PyError`
whose returned state reflects every assignment executed before any raise
point (here: none, since every setter validates before assigning), and
whose second component records the exception raised, if any.  The kivy
canvas is modelled as the list of drawing commands issued by `_draw`, and
`draw_count` instruments the number of `_draw` invocations (the redraw
spy).  Label texture measurement is an external collaborator and is passed
in as a function `measure : String → ℚ → ℚ × ℚ` (text, font size ↦ texture
size).  Machine numerics: Python ints are ℤ, Python floats/true division
are ℚ.
-/

/-- Python exception kinds raised by the widget's setters:
`TypeError` is the spec's `InvalidType`, `ValueError` the spec's
`InvalidValue`. -/
inductive PyError where
  | TypeError
  | ValueError
  deriving Repr, DecidableEq

/-- A `kivy.core.text.Label`: the fields the widget reads or writes
(`text` and `font_size`). -/
structure KLabel where
  text : String
  font_size : ℚ
  deriving Repr, DecidableEq

/-- Python values that can be passed to the widget's setters: integers,
floats, strings, numeric sequences (lists/tuples), and kivy labels. -/
inductive PyVal where
  | int (n : ℤ)
  | float (q : ℚ)
  | str (s : String)
  | list (xs : List ℚ)
  | label (l : KLabel)
  deriving Repr, DecidableEq

/-- `isinstance(v, collections.abc.Iterable)`: Python strings, lists and
tuples are iterable; ints, floats and labels are not. -/
def PyVal.isIterable : PyVal → Bool
  | .str _ => true
  | .list _ => true
  | _ => false

/-- `_ACCEPTED_BAR_CAPS = {"round", "none", "square"}`. -/
def _ACCEPTED_BAR_CAPS : List String := ["round", "none", "square"]

def _DEFAULT_THICKNESS : ℤ := 10
def _DEFAULT_CAP_STYLE : String := "round"
def _DEFAULT_PRECISION : ℤ := 10
def _DEFAULT_PROGRESS_COLOUR : PyVal := .list [1, 0, 0, 1]
def _DEFAULT_BACKGROUND_COLOUR : PyVal := .list [26/100, 26/100, 26/100, 1]
def _DEFAULT_MAX_PROGRESS : ℤ := 100
def _DEFAULT_MIN_PROGRESS : ℤ := 0
def _DEFAULT_WIDGET_SIZE : ℤ := 200

/-- `_DEFAULT_TEXT_LABEL = Label(text="{}%", font_size=40)` (the braces of
the template are written with escapes). -/
def _DEFAULT_TEXT_LABEL : KLabel := { text := "\x7b\x7d%", font_size := 40 }

def _NORMALISED_MAX : ℤ := 1
def _NORMALISED_MIN : ℤ := 0

/-- One drawing command issued inside `_draw`'s `with self.canvas` block. -/
inductive DrawCmd where
  | color (c : PyVal)
  | colorRGBA (r g b a : ℚ)
  | lineCircle (cx cy radius width : ℚ)
  | lineArc (cx cy radius angleStart angleEnd width : ℚ)
      (cap : String) (cap_precision : ℤ)
  | rectangle (texture : String) (w h x y : ℚ)
  deriving Repr, DecidableEq

/-- The `CircularProgressBar` widget state: the `_`-prefixed attributes set
in `__init__`, plus the widget `pos` inherited from `Widget`, the modelled
`canvas` contents, and the `draw_count` redraw spy. -/
structure CircularProgressBar where
  thickness : ℤ
  cap_style : String
  cap_precision : ℤ
  progress_colour : PyVal
  background_colour : PyVal
  max_progress : ℤ
  min_progress : ℤ
  widget_size : ℤ
  text_label : KLabel
  value : ℤ
  default_label_text : String
  label_size : ℚ × ℚ
  pos : ℚ × ℚ
  canvas : List DrawCmd
  draw_count : ℕ
  deriving Repr, DecidableEq

/-- The state built by `__init__` (with `pos` defaulting to the origin and
an empty canvas). -/
def defaultBar : CircularProgressBar :=
  { thickness := _DEFAULT_THICKNESS
    cap_style := _DEFAULT_CAP_STYLE
    cap_precision := _DEFAULT_PRECISION
    progress_colour := _DEFAULT_PROGRESS_COLOUR
    background_colour := _DEFAULT_BACKGROUND_COLOUR
    max_progress := _DEFAULT_MAX_PROGRESS
    min_progress := _DEFAULT_MIN_PROGRESS
    widget_size := _DEFAULT_WIDGET_SIZE
    text_label := _DEFAULT_TEXT_LABEL
    value := _DEFAULT_MIN_PROGRESS
    default_label_text := _DEFAULT_TEXT_LABEL.text
    label_size := (0, 0)
    pos := (0, 0)
    canvas := []
    draw_count := 0 }

/-- Python `int(q)`: truncation toward zero. -/
def pyInt (q : ℚ) : ℤ := if 0 ≤ q then ⌊q⌋ else ⌈q⌉

/-- Python `template.format(arg)` for the single-slot templates this widget
uses: the first occurrence of the placeholder `\x7b\x7d` is replaced by
`arg`; a template with no placeholder is returned unchanged. -/
def pyFormat (template arg : String) : String :=
  match template.splitOn "\x7b\x7d" with
  | [] => template
  | [t] => t
  | t :: rest => t ++ arg ++ String.intercalate "\x7b\x7d" rest

/-- `get_normalised_progress`:
`_NORMALISED_MIN + (value - min) * (_NORMALISED_MAX - _NORMALISED_MIN) /
(max - min)` with Python's true division. -/
def get_normalised_progress (s : CircularProgressBar) : ℚ :=
  (_NORMALISED_MIN : ℚ) +
    ((s.value : ℚ) - (s.min_progress : ℚ)) *
      ((_NORMALISED_MAX : ℚ) - (_NORMALISED_MIN : ℚ)) /
      ((s.max_progress : ℚ) - (s.min_progress : ℚ))

/-- `_refresh_text`: substitutes the current percentage into the
remembered original template, refreshes the label texture, and stores the
texture size. -/
def _refresh_text (measure : String → ℚ → ℚ × ℚ)
    (s : CircularProgressBar) : CircularProgressBar :=
  let newText :=
    pyFormat s.default_label_text
      (toString (pyInt (get_normalised_progress s * 100)))
  let lbl : KLabel := { s.text_label with text := newText }
  { s with text_label := lbl, label_size := measure lbl.text lbl.font_size }

/-- `_draw`: clears the canvas, refreshes the label text, then issues the
background circle, the progress arc and the label rectangle.  Also bumps
the `draw_count` spy. -/
def _draw (measure : String → ℚ → ℚ × ℚ)
    (s : CircularProgressBar) : CircularProgressBar :=
  let s1 := _refresh_text measure s
  let cx : ℚ := s1.pos.1 + (s1.widget_size : ℚ) / 2
  let cy : ℚ := s1.pos.2 + (s1.widget_size : ℚ) / 2
  let radius : ℚ := (s1.widget_size : ℚ) / 2 - (s1.thickness : ℚ)
  { s1 with
    canvas :=
      [ .color s1.background_colour,
        .lineCircle cx cy radius (s1.thickness : ℚ),
        .color s1.progress_colour,
        .lineArc cx cy radius 0 (get_normalised_progress s1 * 360)
          (s1.thickness : ℚ) s1.cap_style s1.cap_precision,
        .colorRGBA 1 1 1 1,
        .rectangle s1.text_label.text s1.label_size.1 s1.label_size.2
          (cx - s1.label_size.1 / 2) (cy - s1.label_size.2 / 2) ],
    draw_count := s1.draw_count + 1 }

/-- `thickness.setter`. -/
def thickness_set (s : CircularProgressBar) (v : PyVal) :
    CircularProgressBar × Option PyError :=
  match v with
  | .int n =>
      if n ≤ 0 then (s, some .ValueError)
      else ({ s with thickness := n }, none)
  | _ => (s, some .TypeError)

/-- Python `str.lower()` (for the ASCII strings this widget handles). -/
def pyLower (s : String) : String := String.mk (s.data.map Char.toLower)

/-- Python `str.strip()`: drops leading and trailing whitespace. -/
def pyStrip (s : String) : String :=
  String.mk
    (((s.data.dropWhile Char.isWhitespace).reverse.dropWhile
        Char.isWhitespace).reverse)

/-- `cap_style.setter`: lowercases and strips the string
(`value.lower().strip()`), then checks membership in
`_ACCEPTED_BAR_CAPS`. -/
def cap_style_set (s : CircularProgressBar) (v : PyVal) :
    CircularProgressBar × Option PyError :=
  match v with
  | .str raw =>
      let value := pyStrip (pyLower raw)
      if value ∉ _ACCEPTED_BAR_CAPS then (s, some .ValueError)
      else ({ s with cap_style := value }, none)
  | _ => (s, some .TypeError)

/-- `cap_precision.setter`. -/
def cap_precision_set (s : CircularProgressBar) (v : PyVal) :
    CircularProgressBar × Option PyError :=
  match v with
  | .int n =>
      if n ≤ 0 then (s, some .ValueError)
      else ({ s with cap_precision := n }, none)
  | _ => (s, some .TypeError)

/-- `progress_colour.setter`. -/
def progress_colour_set (s : CircularProgressBar) (v : PyVal) :
    CircularProgressBar × Option PyError :=
  if v.isIterable then ({ s with progress_colour := v }, none)
  else (s, some .TypeError)

/-- `background_colour.setter`. -/
def background_colour_set (s : CircularProgressBar) (v : PyVal) :
    CircularProgressBar × Option PyError :=
  if v.isIterable then ({ s with background_colour := v }, none)
  else (s, some .TypeError)

/-- `max.setter`: rejects non-integers with `TypeError`, values `≤` the
current minimum with `ValueError`. -/
def max_set (s : CircularProgressBar) (v : PyVal) :
    CircularProgressBar × Option PyError :=
  match v with
  | .int n =>
      if n ≤ s.min_progress then (s, some .ValueError)
      else ({ s with max_progress := n }, none)
  | _ => (s, some .TypeError)

/-- `min.setter`: rejects non-integers with `TypeError`, values `>` the
current maximum with `ValueError`; on success stores the minimum and also
resets the current value to it. -/
def min_set (s : CircularProgressBar) (v : PyVal) :
    CircularProgressBar × Option PyError :=
  match v with
  | .int n =>
      if n > s.max_progress then (s, some .ValueError)
      else ({ s with min_progress := n, value := n }, none)
  | _ => (s, some .TypeError)

/-- `value.setter`: the bounds guard is the chained comparison
`self._min_progress > value > self._max_progress` exactly as written in
the source; when the new value differs from the stored one it is stored
and `_draw` runs. -/
def value_set (measure : String → ℚ → ℚ × ℚ)
    (s : CircularProgressBar) (v : PyVal) :
    CircularProgressBar × Option PyError :=
  match v with
  | .int n =>
      if s.min_progress > n ∧ n > s.max_progress then (s, some .ValueError)
      else if n ≠ s.value then
        (_draw measure { s with value := n }, none)
      else (s, none)
  | _ => (s, some .TypeError)

/-- `widget_size.setter`. -/
def widget_size_set (s : CircularProgressBar) (v : PyVal) :
    CircularProgressBar × Option PyError :=
  match v with
  | .int n =>
      if n ≤ 0 then (s, some .ValueError)
      else ({ s with widget_size := n }, none)
  | _ => (s, some .TypeError)

/-- `label.setter`: stores the label and remembers its original template
text. -/
def label_set (s : CircularProgressBar) (v : PyVal) :
    CircularProgressBar × Option PyError :=
  match v with
  | .label l =>
      ({ s with text_label := l, default_label_text := l.text }, none)
  | _ => (s, some .TypeError)

/-- One call to one of the widget's property setters. -/
inductive SetterCall where
  | thickness (v : PyVal)
  | cap_style (v : PyVal)
  | cap_precision (v : PyVal)
  | progress_colour (v : PyVal)
  | background_colour (v : PyVal)
  | max (v : PyVal)
  | min (v : PyVal)
  | value (v : PyVal)
  | widget_size (v : PyVal)
  | label (v : PyVal)
  deriving Repr, DecidableEq

/-- Dispatch a setter call to the corresponding setter. -/
def applyCall (measure : String → ℚ → ℚ × ℚ)
    (s : CircularProgressBar) : SetterCall →
    CircularProgressBar × Option PyError
  | .thickness v => thickness_set s v
  | .cap_style v => cap_style_set s v
  | .cap_precision v => cap_precision_set s v
  | .progress_colour v => progress_colour_set s v
  | .background_colour v => background_colour_set s v
  | .max v => max_set s v
  | .min v => min_set s v
  | .value v => value_set measure s v
  | .widget_size v => widget_size_set s v
  | .label v => label_set s v

/-- States reachable from the freshly constructed widget by any sequence
of setter calls (failed calls keep the state they return). -/
inductive Reachable (measure : String → ℚ → ℚ × ℚ) :
    CircularProgressBar → Prop where
  | init : Reachable measure defaultBar
  | step {s : CircularProgressBar} (c : SetterCall) :
      Reachable measure s → Reachable measure (applyCall measure s c).1

/-- A trivial texture-measure collaborator, used to instantiate theorems
at concrete inputs. -/
def measure0 : String → ℚ → ℚ × ℚ := fun _ _ => (0, 0)

/-! ## Claim theorems -/

/-- Helper: a single setter call either leaves the cap style unchanged or
stores a member of `_ACCEPTED_BAR_CAPS`. -/
theorem cap_style_after_call (measure : String → ℚ → ℚ × ℚ)
    (s : CircularProgressBar) (c : SetterCall) :
    ((applyCall measure s c).1).cap_style = s.cap_style ∨
      ((applyCall measure s c).1).cap_style ∈ _ACCEPTED_BAR_CAPS := by
  cases c <;> rename_i v <;> cases v <;>
    simp [applyCall, thickness_set, cap_style_set, cap_precision_set,
      progress_colour_set, background_colour_set, max_set, min_set,
      value_set, widget_size_set, label_set, PyVal.isIterable,
      _draw, _refresh_text] <;>
    split_ifs <;> simp_all

/-- C1: the claim says `set_value(v)` rejects every out-of-range integer
with `InvalidValue`, leaving the value unchanged.  The code's guard is the
chained comparison `min > v > max`, which is unsatisfiable at the default
bounds: `set_value(200)` on the default widget (min 0, max 100) raises
nothing, stores 200 and triggers a redraw. -/
theorem C1_set_value_accepts_out_of_range :
    (value_set measure0 defaultBar (.int 200)).2 = none ∧
    (value_set measure0 defaultBar (.int 200)).1.value = 200 ∧
    (value_set measure0 defaultBar (.int 200)).1.draw_count =
      defaultBar.draw_count + 1 :=
  ⟨by decide, by decide, by decide⟩

/-- C2: the claim says no successful `set_min`/`set_max` call can make min
equal to max, so the divisor `max - min` is never zero.  The `min` setter
only rejects `v > max`, so `set_min(100)` on the default widget (max 100)
succeeds and leaves `min = max = 100`: the divisor of
`get_normalised_progress` becomes zero. -/
theorem C2_set_min_reaches_min_eq_max :
    (min_set defaultBar (.int 100)).2 = none ∧
    (min_set defaultBar (.int 100)).1.min_progress =
      (min_set defaultBar (.int 100)).1.max_progress ∧
    (min_set defaultBar (.int 100)).1.max_progress -
      (min_set defaultBar (.int 100)).1.min_progress = 0 :=
  ⟨by decide, by decide, by decide⟩

/-- C3: in every state with `min < max` and `min ≤ value ≤ max`,
`get_normalised_progress` lies in `[0, 1]`, equals 0 when the value is the
minimum and 1 when it is the maximum. -/
theorem C3_normalised_progress_in_unit_interval (s : CircularProgressBar)
    (hlt : s.min_progress < s.max_progress)
    (hlo : s.min_progress ≤ s.value) (hhi : s.value ≤ s.max_progress) :
    0 ≤ get_normalised_progress s ∧ get_normalised_progress s ≤ 1 ∧
      (s.value = s.min_progress → get_normalised_progress s = 0) ∧
      (s.value = s.max_progress → get_normalised_progress s = 1) := by
  have hd : (0:ℚ) < (s.max_progress : ℚ) - (s.min_progress : ℚ) := by
    rw [sub_pos]; exact_mod_cast hlt
  have hnum : (0:ℚ) ≤ (s.value : ℚ) - (s.min_progress : ℚ) := by
    rw [sub_nonneg]; exact_mod_cast hlo
  have hle : (s.value : ℚ) - (s.min_progress : ℚ) ≤
      (s.max_progress : ℚ) - (s.min_progress : ℚ) := by
    apply sub_le_sub_right; exact_mod_cast hhi
  have hrw : get_normalised_progress s =
      ((s.value : ℚ) - (s.min_progress : ℚ)) /
        ((s.max_progress : ℚ) - (s.min_progress : ℚ)) := by
    simp [get_normalised_progress, _NORMALISED_MIN, _NORMALISED_MAX]
  refine ⟨?_, ?_, ?_, ?_⟩
  · rw [hrw]; exact div_nonneg hnum hd.le
  · rw [hrw]; exact (div_le_one hd).mpr hle
  · intro h; rw [hrw, h]; simp
  · intro h; rw [hrw, h]; exact div_self hd.ne'

/-- C3 witness: the default widget (min 0, max 100, value 0) satisfies the
hypotheses, and its normalised progress is 0. -/
theorem C3_witness :
    0 ≤ get_normalised_progress defaultBar ∧
      get_normalised_progress defaultBar ≤ 1 ∧
      get_normalised_progress defaultBar = 0 :=
  ⟨(C3_normalised_progress_in_unit_interval defaultBar (by decide) (by decide)
      (by decide)).1,
   (C3_normalised_progress_in_unit_interval defaultBar (by decide) (by decide)
      (by decide)).2.1,
   (C3_normalised_progress_in_unit_interval defaultBar (by decide) (by decide)
      (by decide)).2.2.1 (by decide)⟩

/-- C4: for any integer `m ≤` the current maximum, `set_min(m)` succeeds
and sets both the stored minimum and the stored value to `m`, whatever the
prior state was. -/
theorem C4_set_min_resets_value (s : CircularProgressBar) (m : ℤ)
    (h : m ≤ s.max_progress) :
    min_set s (.int m) = ({ s with min_progress := m, value := m }, none) := by
  simp [min_set, not_lt.mpr h]

/-- C4 witness: `set_min(-5)` on the default widget (max 100, value 0)
stores minimum and value `-5`. -/
theorem C4_witness :
    min_set defaultBar (.int (-5)) =
      ({ defaultBar with min_progress := -5, value := -5 }, none) :=
  C4_set_min_resets_value defaultBar (-5) (by decide)

/-- C5: in any state with `min ≤ max`, `set_value` with the currently
stored value is a no-op (state returned unchanged, no exception, no
redraw), and a successful `set_value(n)` bumps the redraw counter exactly
when `n` differs from the stored value. -/
theorem C5_set_value_noop_and_redraw_iff (measure : String → ℚ → ℚ × ℚ)
    (s : CircularProgressBar) (n : ℤ)
    (hmm : s.min_progress ≤ s.max_progress) :
    (n = s.value → value_set measure s (.int n) = (s, none)) ∧
    ((value_set measure s (.int n)).2 = none →
      (value_set measure s (.int n)).1.draw_count =
        s.draw_count + (if n = s.value then 0 else 1)) := by
  constructor
  · intro h
    subst h
    have h1 : ¬(s.min_progress > s.value ∧ s.value > s.max_progress) := by
      omega
    simp [value_set, h1]
  · simp only [value_set]
    split_ifs with h1 h2 h3 h4 <;> intro hnone <;>
      simp_all [_draw, _refresh_text]

/-- C5 witness: `set_value(0)` on the default widget (stored value 0)
returns the state unchanged with no exception. -/
theorem C5_witness :
    value_set measure0 defaultBar (.int 0) = (defaultBar, none) :=
  (C5_set_value_noop_and_redraw_iff measure0 defaultBar 0 (by decide)).1
    (by decide)

/-- C6: every setter call that raises (`TypeError` or `ValueError`)
returns the state exactly as it was, so no stored attribute changes, the
canvas is untouched and the redraw counter does not move. -/
theorem C6_failed_setter_preserves_state (measure : String → ℚ → ℚ × ℚ)
    (s : CircularProgressBar) (c : SetterCall)
    (h : (applyCall measure s c).2.isSome = true) :
    (applyCall measure s c).1 = s := by
  cases c <;> rename_i v <;> cases v <;>
    simp_all [applyCall, thickness_set, cap_style_set, cap_precision_set,
      progress_colour_set, background_colour_set, max_set, min_set,
      value_set, widget_size_set, label_set, PyVal.isIterable] <;>
    split_ifs at h ⊢ <;> simp_all

/-- C6 witness: `set_thickness("x")` raises `TypeError` and leaves the
default widget unchanged. -/
theorem C6_witness :
    (applyCall measure0 defaultBar (.thickness (.str "x"))).1 = defaultBar :=
  C6_failed_setter_preserves_state measure0 defaultBar (.thickness (.str "x"))
    (by decide)

/-- C7: `set_cap_style` lowercases and strips its argument before the
membership check — `"RouND"` succeeds and stores `"round"`, `"oval"`
raises `ValueError` — and every reachable state's stored cap style is a
member of `_ACCEPTED_BAR_CAPS`. -/
theorem C7_cap_style_normalisation_and_invariant :
    (∀ s : CircularProgressBar,
      cap_style_set s (.str "RouND") =
        ({ s with cap_style := "round" }, none)) ∧
    (∀ s : CircularProgressBar,
      cap_style_set s (.str "oval") = (s, some .ValueError)) ∧
    (∀ (measure : String → ℚ → ℚ × ℚ) (s : CircularProgressBar),
      Reachable measure s → s.cap_style ∈ _ACCEPTED_BAR_CAPS) := by
  refine ⟨?_, ?_, ?_⟩
  · intro s
    have h : pyStrip (pyLower "RouND") = "round" := by decide
    simp [cap_style_set, h, _ACCEPTED_BAR_CAPS]
  · intro s
    have h : pyStrip (pyLower "oval") ∉ _ACCEPTED_BAR_CAPS := by decide
    simp [cap_style_set, h]
  · intro measure s h
    induction h with
    | init => decide
    | step c hs ih =>
        rcases cap_style_after_call measure _ c with h1 | h1
        · rw [h1]; exact ih
        · exact h1

/-- C7 witness: the three parts instantiated at the default widget (whose
cap style `"round"` is in the accepted set). -/
theorem C7_witness :
    cap_style_set defaultBar (.str "RouND") =
      ({ defaultBar with cap_style := "round" }, none) ∧
    cap_style_set defaultBar (.str "oval") = (defaultBar, some .ValueError) ∧
    defaultBar.cap_style ∈ _ACCEPTED_BAR_CAPS :=
  ⟨C7_cap_style_normalisation_and_invariant.1 defaultBar,
   C7_cap_style_normalisation_and_invariant.2.1 defaultBar,
   C7_cap_style_normalisation_and_invariant.2.2 measure0 defaultBar
     Reachable.init⟩

/-- C8: for integer arguments, `set_max(n)` raises `ValueError` exactly
when `n ≤` the current minimum and `set_min(n)` exactly when `n >` the
current maximum; every non-integer argument raises `TypeError`. -/
theorem C8_min_max_rejection_conditions (s : CircularProgressBar) (n : ℤ) :
    ((max_set s (.int n)).2 = some .ValueError ↔ n ≤ s.min_progress) ∧
    ((min_set s (.int n)).2 = some .ValueError ↔ n > s.max_progress) ∧
    (∀ v : PyVal, (∀ k : ℤ, v ≠ .int k) →
      (max_set s v).2 = some .TypeError ∧
      (min_set s v).2 = some .TypeError) := by
  refine ⟨?_, ?_, ?_⟩
  · by_cases h : n ≤ s.min_progress <;> simp [max_set, h]
  · by_cases h : n > s.max_progress <;> simp [min_set, h]
  · intro v hv
    cases v <;>
      first
      | exact absurd rfl (hv _)
      | exact ⟨by simp [max_set], by simp [min_set]⟩

/-- C8 witness: on the default widget, `set_max(0)` hits `0 ≤ min`,
`set_min(200)` hits `200 > max`, and the string `"x"` raises `TypeError`
from both setters. -/
theorem C8_witness :
    ((max_set defaultBar (.int 0)).2 = some .ValueError ↔
      (0:ℤ) ≤ defaultBar.min_progress) ∧
    ((min_set defaultBar (.int 200)).2 = some .ValueError ↔
      (200:ℤ) > defaultBar.max_progress) ∧
    ((max_set defaultBar (.str "x")).2 = some .TypeError ∧
      (min_set defaultBar (.str "x")).2 = some .TypeError) :=
  ⟨(C8_min_max_rejection_conditions defaultBar 0).1,
   (C8_min_max_rejection_conditions defaultBar 200).2.1,
   (C8_min_max_rejection_conditions defaultBar 0).2.2 (.str "x")
     (fun _ h => PyVal.noConfusion h)⟩

/-- C9: text refreshes substitute the percentage into the original
template remembered by the most recent `set_label` call — a repeated
refresh does not compound an already-substituted string, and after a
second `set_label` the substitution uses the second label's original
template. -/
theorem C9_label_substitutes_original_template
    (measure : String → ℚ → ℚ × ℚ) (s : CircularProgressBar)
    (l1 l2 : KLabel) (h : s.min_progress < s.max_progress) :
    ((_refresh_text measure (label_set s (.label l1)).1).text_label.text =
      pyFormat l1.text
        (toString (pyInt (get_normalised_progress s * 100)))) ∧
    ((_refresh_text measure
        (_refresh_text measure (label_set s (.label l1)).1)).text_label.text =
      pyFormat l1.text
        (toString (pyInt (get_normalised_progress s * 100)))) ∧
    ((_refresh_text measure
        (label_set
          (_refresh_text measure (label_set s (.label l1)).1)
          (.label l2)).1).text_label.text =
      pyFormat l2.text
        (toString (pyInt (get_normalised_progress s * 100)))) := by
  refine ⟨?_, ?_, ?_⟩ <;>
    simp [label_set, _refresh_text, get_normalised_progress]

/-- C9 witness: on the default widget, relabelling with a `Loading`
template and then with the stock percentage template always substitutes
into the respective original template. -/
theorem C9_witness :
    ((_refresh_text measure0
        (label_set defaultBar
          (.label ⟨"Loading \x7b\x7d", 10⟩)).1).text_label.text =
      pyFormat "Loading \x7b\x7d"
        (toString (pyInt (get_normalised_progress defaultBar * 100)))) ∧
    ((_refresh_text measure0
        (_refresh_text measure0
          (label_set defaultBar
            (.label ⟨"Loading \x7b\x7d", 10⟩)).1)).text_label.text =
      pyFormat "Loading \x7b\x7d"
        (toString (pyInt (get_normalised_progress defaultBar * 100)))) ∧
    ((_refresh_text measure0
        (label_set
          (_refresh_text measure0
            (label_set defaultBar (.label ⟨"Loading \x7b\x7d", 10⟩)).1)
          (.label ⟨"\x7b\x7d%", 40⟩)).1).text_label.text =
      pyFormat "\x7b\x7d%"
        (toString (pyInt (get_normalised_progress defaultBar * 100)))) :=
  C9_label_substitutes_original_template measure0 defaultBar
    ⟨"Loading \x7b\x7d", 10⟩ ⟨"\x7b\x7d%", 40⟩ (by decide)

/-- C10: a successful `set_min(m)` updates minimum and value but leaves
the redraw counter, the canvas and the label untouched, and no setter
other than the `value` setter ever moves the redraw counter. -/
theorem C10_set_min_changes_value_without_redraw
    (measure : String → ℚ → ℚ × ℚ) (s : CircularProgressBar) (m : ℤ)
    (h : m ≤ s.max_progress) :
    ((min_set s (.int m)).2 = none ∧
     (min_set s (.int m)).1.min_progress = m ∧
     (min_set s (.int m)).1.value = m ∧
     (min_set s (.int m)).1.draw_count = s.draw_count ∧
     (min_set s (.int m)).1.canvas = s.canvas ∧
     (min_set s (.int m)).1.text_label = s.text_label) ∧
    (∀ c : SetterCall, (∀ v : PyVal, c ≠ .value v) →
      (applyCall measure s c).1.draw_count = s.draw_count) := by
  constructor
  · simp [min_set, not_lt.mpr h]
  · intro c hc
    cases c <;> rename_i v <;>
      first
      | exact absurd rfl (hc v)
      | (cases v <;>
          simp [applyCall, thickness_set, cap_style_set, cap_precision_set,
            progress_colour_set, background_colour_set, max_set, min_set,
            widget_size_set, label_set, PyVal.isIterable] <;>
          split_ifs <;> simp)

/-- C10 witness: `set_min(5)` on the default widget updates minimum and
value to 5 with no redraw, and a `set_thickness(3)` call leaves the redraw
counter alone. -/
theorem C10_witness :
    ((min_set defaultBar (.int 5)).2 = none ∧
     (min_set defaultBar (.int 5)).1.min_progress = 5 ∧
     (min_set defaultBar (.int 5)).1.value = 5 ∧
     (min_set defaultBar (.int 5)).1.draw_count = defaultBar.draw_count ∧
     (min_set defaultBar (.int 5)).1.canvas = defaultBar.canvas ∧
     (min_set defaultBar (.int 5)).1.text_label = defaultBar.text_label) ∧
    (applyCall measure0 defaultBar (.thickness (.int 3))).1.draw_count =
      defaultBar.draw_count :=
  ⟨(C10_set_min_changes_value_without_redraw measure0 defaultBar 5
      (by decide)).1,
   (C10_set_min_changes_value_without_redraw measure0 defaultBar 5
      (by decide)).2 (.thickness (.int 3))
      (fun _ h => SetterCall.noConfusion h)⟩
